import Mathlib

/-!
Shallow embedding of `src/hook/inner.rs` of the willhook crate
(rust-winapi-capture-keyboard-and-mouse-with-low-level-hooks), together with
proofs of the specified properties of the hook registry, the OS callback,
the teardown path, the startup handshake and the event channel.

Mutexes: a `Mutex::lock` in the source can fail only when poisoned.  Where the
source itself branches on the lock result (`if let Ok`, `try_recv`'s receiver
lock, the drop path) the embedding keeps an explicit `lockOk : Bool` parameter;
where the source unwraps (the registry mutexes, the sender mutex) the embedding
treats the lock as succeeding, since no thread of this program panics while
holding those locks.
-/

namespace Willhook

/-! Constants of the winapi crate exactly as used in `src/hook/inner.rs`. -/

def WM_KEYDOWN : Nat := 256

def WM_KEYUP : Nat := 257

def WM_SYSKEYDOWN : Nat := 260

def WM_SYSKEYUP : Nat := 261

def WH_KEYBOARD_LL : Int := 13

def WH_MOUSE_LL : Int := 14

/-- Modelled from the spec: `KeyCode` (the crate's event classification, from
`crate::hook::KeyCode`, whose file is not under `src/`): a raw OS action is
classified into the enumeration {Down, Up}. -/
inductive KeyCode where
  | Down
  | Up
deriving DecidableEq, Repr

/-- The two hook kinds of the crate: `GLOBAL_KEYBOARD_HOOK` (WH_KEYBOARD_LL)
and `GLOBAL_MOUSE_HOOK` (WH_MOUSE_LL). -/
inductive HookKind where
  | keyboard
  | mouse
deriving DecidableEq, Repr

/-- The hook procedures defined in `inner.rs`.  There is exactly one:
`low_level_keyboard_procedure`; both `setup_keyboard_hook` and
`setup_mouse_hook` register it. -/
inductive HookProc where
  | lowLevelKeyboardProcedure
deriving DecidableEq, Repr

/-! ### The mpsc event channel (`GLOBAL_CHANNEL`) -/

/-- A `std::sync::mpsc::Sender<KeyCode>` clone, identified by the channel it
sends into. -/
structure Sender where
  chan : Nat
deriving DecidableEq, Repr

/-- A `std::sync::mpsc::Receiver<KeyCode>`, identified by its channel. -/
structure Receiver where
  chan : Nat
deriving DecidableEq, Repr

/-- `std::sync::mpsc::channel()`: a connected sender/receiver pair on a fresh
channel. -/
def channel (fresh : Nat) : Sender × Receiver :=
  ({ chan := fresh }, { chan := fresh })

/-- Dynamic state of the single mpsc channel: the queued events, in send
order, and the number of live `Sender` clones. -/
structure MpscState where
  queue : List KeyCode
  senders : Nat
deriving DecidableEq, Repr

/-- The error type of `std::sync::mpsc::Receiver::try_recv`. -/
inductive TryRecvError where
  | Empty
  | Disconnected
deriving DecidableEq, Repr

/-- `Receiver::try_recv`: non-blocking; yields the oldest queued value, or
`Empty` when none is queued but a sender is still alive, or `Disconnected`
when none is queued and every sender has been dropped. -/
def mpsc_try_recv (c : MpscState) : Except TryRecvError KeyCode × MpscState :=
  match c.queue with
  | [] =>
      if c.senders = 0 then (Except.error TryRecvError.Disconnected, c)
      else (Except.error TryRecvError.Empty, c)
  | k :: rest => (Except.ok k, { c with queue := rest })

/-- `Sender::send`: enqueues when the receiver is still alive, errs otherwise;
never blocks (the channel is unbounded). -/
def mpsc_send (c : MpscState) (receiverAlive : Bool) (kc : KeyCode) :
    Except Unit Unit × MpscState :=
  if receiverAlive then (Except.ok (), { c with queue := c.queue ++ [kc] })
  else (Except.error (), c)

/-- The field layout of `HookChannels` (the type of `GLOBAL_CHANNEL`). -/
structure HookChannels where
  keyboard_sender : Sender
  mouse_sender : Sender
  receiver : Receiver
deriving DecidableEq, Repr

/-- `HookChannels::new`: one `channel()` call produces `(s, r)`; the struct
stores `s.clone()` as the keyboard sender, `s.clone()` as the mouse sender,
and `r` as the receiver. -/
def HookChannels.new : HookChannels :=
  let p := channel 0
  { keyboard_sender := p.1, mouse_sender := p.1, receiver := p.2 }

/-- `GLOBAL_CHANNEL`: the lazily-initialized process-wide static holding the
channel endpoints; it is never dropped. -/
def GLOBAL_CHANNEL : HookChannels := HookChannels.new

/-- Dynamic channel state right after `GLOBAL_CHANNEL` is initialized: no
event queued; the local `s` of `HookChannels::new` has been dropped and the
two clones stored in the static remain, so two senders are alive. -/
def chanInit : MpscState := { queue := [], senders := 2 }

/-- `send_key`: locks `GLOBAL_CHANNEL.keyboard_sender` (always the keyboard
sender, whichever hook kind produced the event) and sends, discarding the
send result. -/
def send_key (c : MpscState) (receiverAlive : Bool) (kc : KeyCode) : MpscState :=
  (mpsc_send c receiverAlive kc).2

/-- `InnerHook::try_recv`: locks `GLOBAL_CHANNEL.receiver` and polls it;
a failed lock is reported as `Disconnected`. -/
def InnerHook.try_recv (recvLockOk : Bool) (c : MpscState) :
    Except TryRecvError KeyCode × MpscState :=
  if recvLockOk then mpsc_try_recv c
  else (Except.error TryRecvError.Disconnected, c)

/-! ### The OS callback (`low_level_keyboard_procedure`) -/

/-- Observable outcome of one callback invocation: the value handed to
`send_key` (if any), the LRESULT returned, and whether `CallNextHookEx` was
called. -/
structure CallbackResult where
  sent : Option KeyCode
  ret : Int
  chainCalled : Bool
deriving DecidableEq, Repr

/-- The `match wm_key_code as u32` classification arms of
`low_level_keyboard_procedure`, in source order; every unlisted code falls
into the forwarding default arm. -/
def classify_wm (wm : Nat) : Option KeyCode :=
  if wm = WM_KEYDOWN then some KeyCode.Down
  else if wm = WM_KEYUP then some KeyCode.Up
  else if wm = WM_SYSKEYDOWN then some KeyCode.Down
  else if wm = WM_SYSKEYUP then some KeyCode.Up
  else none

/-- `low_level_keyboard_procedure`.  `kbHookPresent` is the value of
`is_hook_present(&GLOBAL_KEYBOARD_HOOK)` at invocation time — the source
consults the keyboard slot unconditionally, this being the only registry
access in the procedure.  `chainResult` is what `CallNextHookEx` returns for
these arguments; `wm_key_code` is the WPARAM (a usize), truncated by the
source's `as u32` cast.  Returns the observable outcome and the channel state
after the invocation. -/
def low_level_keyboard_procedure (kbHookPresent : Bool) (chainResult : Int)
    (c : MpscState) (receiverAlive : Bool)
    (code : Int) (wm_key_code : Nat) : CallbackResult × MpscState :=
  if code < 0 ∨ kbHookPresent = false then
    ({ sent := none, ret := chainResult, chainCalled := true }, c)
  else
    match classify_wm (wm_key_code % 2 ^ 32) with
    | none => ({ sent := none, ret := chainResult, chainCalled := true }, c)
    | some kc =>
        ({ sent := some kc, ret := chainResult, chainCalled := true },
         send_key c receiverAlive kc)

/-- The callback behaviour as claim C3 words it: the liveness slot consulted
is the one of the hook kind the callback was registered for.  Stated for
comparison with `low_level_keyboard_procedure`; not part of the source. -/
def callback_per_claim (served : HookKind) (kbHookPresent mouseHookPresent : Bool)
    (chainResult : Int) (c : MpscState) (receiverAlive : Bool)
    (code : Int) (wm_key_code : Nat) : CallbackResult × MpscState :=
  let present :=
    match served with
    | HookKind.keyboard => kbHookPresent
    | HookKind.mouse => mouseHookPresent
  if code < 0 ∨ present = false then
    ({ sent := none, ret := chainResult, chainCalled := true }, c)
  else
    match classify_wm (wm_key_code % 2 ^ 32) with
    | none => ({ sent := none, ret := chainResult, chainCalled := true }, c)
    | some kc =>
        ({ sent := some kc, ret := chainResult, chainCalled := true },
         send_key c receiverAlive kc)

/-! ### The global hook registry, per kind -/

/-- State of one kind's registry slot and of the `Arc<InnerHook>` clones held
for that kind.  `slot` is `GLOBAL_KEYBOARD_HOOK` / `GLOBAL_MOUSE_HOOK`:
`none`, or `some i` for a `Weak` reference to context `i`.  `handles` lists
the live `Arc<InnerHook>` clones by context id (one entry per clone, so the
strong count of context `i` is its multiplicity).  `nextId` supplies fresh
context ids; `registrations` records, in order, the `(hook_id, handler)`
argument pairs of every `SetWindowsHookExA` call issued so far. -/
structure RegState where
  slot : Option Nat
  handles : List Nat
  nextId : Nat
  registrations : List (Int × Option HookProc)
deriving DecidableEq, Repr

/-- Process start: no slot filled, no handle, no registration. -/
def RegState.init : RegState :=
  { slot := none, handles := [], nextId := 0, registrations := [] }

/-- `Weak::upgrade` on a weak reference to context `i` succeeds exactly when
some `Arc` clone of `i` is still alive. -/
def upgrade_ok (s : RegState) (i : Nat) : Bool :=
  decide (i ∈ s.handles)

/-- `is_hook_present`: lock the slot; report whether it holds a weak
reference that still upgrades. -/
def is_hook_present (s : RegState) : Bool :=
  match s.slot with
  | none => false
  | some i => upgrade_ok s i

/-- The creation arm of `setup_hook`: `Arc::new(InnerHook::new(hook_id,
handler))` — which issues one `SetWindowsHookExA(hook_id, handler, ..)` call —
then `*guard = Some(Arc::downgrade(&hook))`, returning the new Arc. -/
def setup_hook_create (s : RegState) (hook_id : Int) (handler : Option HookProc) :
    Nat × RegState :=
  (s.nextId,
   { slot := some s.nextId
     handles := s.nextId :: s.handles
     nextId := s.nextId + 1
     registrations := s.registrations ++ [(hook_id, handler)] })

/-- `setup_hook`: under the kind's mutex, re-check the stored weak reference;
if it still upgrades, return the upgraded clone; otherwise create and store a
new context.  The whole function is one critical section of the slot's
mutex, so it is one atomic step. -/
def setup_hook (s : RegState) (hook_id : Int) (handler : Option HookProc) :
    Nat × RegState :=
  match s.slot with
  | some i =>
      if upgrade_ok s i then (i, { s with handles := i :: s.handles })
      else setup_hook_create s hook_id handler
  | none => setup_hook_create s hook_id handler

/-- `setup_keyboard_hook`: `None` when `is_hook_present(&GLOBAL_KEYBOARD_HOOK)`,
else `Some(setup_hook(&GLOBAL_KEYBOARD_HOOK, WH_KEYBOARD_LL,
Some(low_level_keyboard_procedure)))`, on the keyboard kind's state. -/
def setup_keyboard_hook (s : RegState) : Option Nat × RegState :=
  if is_hook_present s then (none, s)
  else
    let p := setup_hook s WH_KEYBOARD_LL (some HookProc.lowLevelKeyboardProcedure)
    (some p.1, p.2)

/-- `setup_mouse_hook`: `None` when `is_hook_present(&GLOBAL_MOUSE_HOOK)`,
else `Some(setup_hook(&GLOBAL_MOUSE_HOOK, WH_MOUSE_LL,
Some(low_level_keyboard_procedure)))`, on the mouse kind's state. -/
def setup_mouse_hook (s : RegState) : Option Nat × RegState :=
  if is_hook_present s then (none, s)
  else
    let p := setup_hook s WH_MOUSE_LL (some HookProc.lowLevelKeyboardProcedure)
    (some p.1, p.2)

/-- One atomic event on one kind's registry state: a `setup_hook` critical
section (any caller's, with that kind's fixed arguments), or the drop of one
`Arc<InnerHook>` clone of context `i`. -/
inductive RegAction where
  | setup
  | dropHandle (i : Nat)
deriving DecidableEq, Repr

/-- Step function for a kind whose `setup_hook` call sites pass `hook_id`
and `handler`. -/
def regStep (hook_id : Int) (handler : Option HookProc)
    (s : RegState) (a : RegAction) : RegState :=
  match a with
  | RegAction.setup => (setup_hook s hook_id handler).2
  | RegAction.dropHandle i => { s with handles := s.handles.erase i }

/-- Run a sequence of atomic registry events from a state. -/
def regRun (hook_id : Int) (handler : Option HookProc)
    (s : RegState) (tr : List RegAction) : RegState :=
  tr.foldl (regStep hook_id handler) s

/-- Registry coherence: every live `Arc<InnerHook>` clone of this kind is a
clone of the context the slot's weak reference points to. -/
def RegInv (s : RegState) : Prop :=
  ∀ i ∈ s.handles, s.slot = some i

/-! ### RawHook and the `InnerHook` drop path -/

/-- Modelled from the spec: `RawHook` (from `crate::hook::inner::raw`, whose
file is not under `src/`) wraps the OS-assigned hook token, starting in the
unset state — the token equal to the NULL sentinel, here `0`. -/
structure RawHook where
  raw_handle : Nat
deriving DecidableEq, Repr

/-- Modelled from the spec: `RawHook::new` — the unset (NULL) state. -/
def RawHook.new : RawHook :=
  { raw_handle := 0 }

/-- Modelled from the spec: `RawHook::set` stores the OS token. -/
def RawHook.set (r : RawHook) (h : Nat) : RawHook :=
  { r with raw_handle := h }

/-- Modelled from the spec: `RawHook::get` reads the stored token (the NULL
sentinel `0` while unset). -/
def RawHook.get (r : RawHook) : Nat :=
  r.raw_handle

/-- Observable effect of one `InnerHook` drop: the tokens passed to
`UnhookWindowsHookEx`, in order, and whether the drop path panicked. -/
structure DropEffect where
  unhookCalls : List Nat
  panicked : Bool
deriving DecidableEq, Repr

/-- `impl Drop for InnerHook`: lock `hook_handle` and read the token,
treating a failed lock as the NULL token; if the token is NULL, return
without unregistering; otherwise call `UnhookWindowsHookEx` once.  No arm
panics. -/
def innerHook_drop (lockOk : Bool) (r : RawHook) : DropEffect :=
  let winapi_handle := if lockOk then r.get else 0
  if winapi_handle = 0 then { unhookCalls := [], panicked := false }
  else { unhookCalls := [winapi_handle], panicked := false }

/-! ### The startup handshake of `InnerHook::new` -/

/-- Shared state of the handshake between `InnerHook::new` and the thread it
spawns: the `Mutex<bool>` readiness flag, whether `notify_one` has been
called on the condvar, and the `RawHook` behind `hook_handle`. -/
structure HandshakeState where
  started : Bool
  notified : Bool
  raw : RawHook
deriving DecidableEq, Repr

/-- Shared state at the moment `InnerHook::new` spawns the thread:
`is_started` holds `false`, nothing notified, the raw hook unset. -/
def handshakeInit : HandshakeState :=
  { started := false, notified := false, raw := RawHook.new }

/-- The prefix of the spawned closure in `InnerHook::new`, up to and
including the notification block: call `SetWindowsHookExA` (its result is
`hhook`, `0` on failure); if the token is non-zero, store it into the raw
hook under its lock (`rawLockOk` is that lock's outcome, a failed lock
skipping the store); then, unconditionally, set the readiness flag and
notify the condvar.  After this prefix the thread parks in `GetMessageA`. -/
def hook_thread_startup (hhook : Nat) (rawLockOk : Bool)
    (st : HandshakeState) : HandshakeState :=
  let st1 :=
    if hhook ≠ 0 then
      if rawLockOk then { st with raw := st.raw.set hhook } else st
    else st
  { st1 with started := true, notified := true }

/-- The wait loop at the end of `InnerHook::new`: with the flag's mutex held,
wait on the condvar until the readiness flag is `true`.  `new` can return to
its caller exactly when this predicate holds. -/
def new_wait_returns (st : HandshakeState) : Bool :=
  st.started

/-! ### The whole-process state -/

/-- Whole-process state: both kinds' registry states and the channel. -/
structure SysState where
  kb : RegState
  mouse : RegState
  chan : MpscState
deriving DecidableEq, Repr

/-- Process start: both slots empty, channel freshly initialized. -/
def sysInit : SysState :=
  { kb := RegState.init, mouse := RegState.init, chan := chanInit }

/-- Atomic whole-process events: the public acquire calls, dropping one
`Arc<InnerHook>` clone of either kind, and one OS callback invocation
(`code`, `wm` its arguments). -/
inductive SysAction where
  | acquireKb
  | acquireMouse
  | dropKb (i : Nat)
  | dropMouse (i : Nat)
  | callback (code : Int) (wm : Nat)
deriving DecidableEq, Repr

/-- Whole-process step.  The callback runs `low_level_keyboard_procedure`
(the only procedure ever registered, for either kind); its liveness check
reads the keyboard slot, and the receiver is alive because it lives in the
never-dropped `GLOBAL_CHANNEL` static. -/
def sysStep (s : SysState) (a : SysAction) : SysState :=
  match a with
  | SysAction.acquireKb => { s with kb := (setup_keyboard_hook s.kb).2 }
  | SysAction.acquireMouse => { s with mouse := (setup_mouse_hook s.mouse).2 }
  | SysAction.dropKb i => { s with kb := { s.kb with handles := s.kb.handles.erase i } }
  | SysAction.dropMouse i =>
      { s with mouse := { s.mouse with handles := s.mouse.handles.erase i } }
  | SysAction.callback code wm =>
      { s with
        chan := (low_level_keyboard_procedure (is_hook_present s.kb) 0
                  s.chan true code wm).2 }

/-- Run a sequence of whole-process events from process start. -/
def sysRun (tr : List SysAction) : SysState :=
  tr.foldl sysStep sysInit

/-! ### Helper lemmas on the registry state machine -/

theorem regInv_init : RegInv RegState.init := by
  intro i hi
  simp [RegState.init] at hi

theorem handles_nil_of_dead (s : RegState) (h : RegInv s)
    (hdead : is_hook_present s = false) : s.handles = [] := by
  cases hh : s.handles with
  | nil => rfl
  | cons j t =>
      exfalso
      have hj : j ∈ s.handles := by rw [hh]; exact List.mem_cons_self j t
      have hslot : s.slot = some j := h j hj
      unfold is_hook_present at hdead
      rw [hslot] at hdead
      unfold upgrade_ok at hdead
      rw [decide_eq_false_iff_not] at hdead
      exact hdead hj

theorem setup_hook_eq_create_of_dead (s : RegState) (hook_id : Int)
    (handler : Option HookProc) (hdead : is_hook_present s = false) :
    setup_hook s hook_id handler = setup_hook_create s hook_id handler := by
  unfold setup_hook
  unfold is_hook_present at hdead
  cases hs : s.slot with
  | none => rfl
  | some i =>
      rw [hs] at hdead
      have hdead2 : upgrade_ok s i = false := hdead
      simp [hdead2]

theorem setup_hook_eq_clone_of_live (s : RegState) (hook_id : Int)
    (handler : Option HookProc) (i : Nat) (hs : s.slot = some i)
    (hu : upgrade_ok s i = true) :
    setup_hook s hook_id handler = (i, { s with handles := i :: s.handles }) := by
  unfold setup_hook
  rw [hs]
  simp [hu]

theorem regInv_step (hook_id : Int) (handler : Option HookProc)
    (s : RegState) (a : RegAction) (h : RegInv s) :
    RegInv (regStep hook_id handler s a) := by
  cases a with
  | dropHandle i =>
      intro j hj
      exact h j (List.mem_of_mem_erase hj)
  | setup =>
      show RegInv (setup_hook s hook_id handler).2
      by_cases hp : is_hook_present s = true
      · obtain ⟨i, hs⟩ : ∃ i, s.slot = some i := by
          unfold is_hook_present at hp
          cases hs : s.slot with
          | none => rw [hs] at hp; exact Bool.noConfusion hp
          | some i => exact ⟨i, rfl⟩
        have hu : upgrade_ok s i = true := by
          unfold is_hook_present at hp
          rw [hs] at hp
          exact hp
        rw [setup_hook_eq_clone_of_live s hook_id handler i hs hu]
        intro j hj
        rcases List.mem_cons.mp hj with hj | hj
        · rw [hj]; exact hs
        · exact h j hj
      · rw [Bool.not_eq_true] at hp
        rw [setup_hook_eq_create_of_dead s hook_id handler hp]
        have hnil := handles_nil_of_dead s h hp
        intro j hj
        simp [setup_hook_create, hnil] at hj
        simp [setup_hook_create, hj]

theorem regInv_run (hook_id : Int) (handler : Option HookProc)
    (s : RegState) (h : RegInv s) (tr : List RegAction) :
    RegInv (regRun hook_id handler s tr) := by
  induction tr generalizing s with
  | nil => exact h
  | cons a t ih =>
      show RegInv (regRun hook_id handler (regStep hook_id handler s a) t)
      exact ih _ (regInv_step hook_id handler s a h)

/-! ### Helper lemmas on the channel and the whole-process state -/

theorem mpsc_send_senders (c : MpscState) (receiverAlive : Bool) (kc : KeyCode) :
    (mpsc_send c receiverAlive kc).2.senders = c.senders := by
  unfold mpsc_send
  cases receiverAlive <;> simp

theorem proc_chan_senders (kb : Bool) (chain : Int) (c : MpscState)
    (recvAlive : Bool) (code : Int) (wm : Nat) :
    (low_level_keyboard_procedure kb chain c recvAlive code wm).2.senders = c.senders := by
  unfold low_level_keyboard_procedure
  split
  · rfl
  · split
    · rfl
    · exact mpsc_send_senders c recvAlive _

theorem sysStep_chan_senders (s : SysState) (a : SysAction) :
    (sysStep s a).chan.senders = s.chan.senders := by
  cases a with
  | acquireKb => rfl
  | acquireMouse => rfl
  | dropKb i => rfl
  | dropMouse i => rfl
  | callback code wm => exact proc_chan_senders _ _ _ _ _ _

theorem sysRun_chan_senders (tr : List SysAction) :
    (sysRun tr).chan.senders = 2 := by
  suffices h : ∀ s : SysState, (tr.foldl sysStep s).chan.senders = s.chan.senders by
    exact (h sysInit).trans rfl
  intro s
  induction tr generalizing s with
  | nil => rfl
  | cons a t ih =>
      show ((t.foldl sysStep (sysStep s a)).chan.senders) = s.chan.senders
      rw [ih (sysStep s a), sysStep_chan_senders]

theorem try_recv_not_disconnected_of_senders (recvLockOk : Bool) (c : MpscState)
    (hs : c.senders = 2)
    (hd : (InnerHook.try_recv recvLockOk c).1 = Except.error TryRecvError.Disconnected) :
    recvLockOk = false := by
  cases recvLockOk with
  | false => rfl
  | true =>
      exfalso
      unfold InnerHook.try_recv at hd
      rw [if_pos rfl] at hd
      unfold mpsc_try_recv at hd
      cases hq : c.queue with
      | nil =>
          rw [hq] at hd
          rw [hs] at hd
          simp at hd
      | cons k rest =>
          rw [hq] at hd
          simp at hd

/-! ### Claim theorems -/

/-- C2: on dropping an `InnerHook`, `UnhookWindowsHookEx` is called at most
once, never on the NULL token, only with the stored token after it was
observed in the set (non-null) state; a failed lock or a null token leads to
no unregistration; no drop path panics. -/
theorem innerHook_drop_unhooks_at_most_once (lockOk : Bool) (r : RawHook) :
    (innerHook_drop lockOk r).unhookCalls.length ≤ 1 ∧
    (innerHook_drop lockOk r).panicked = false ∧
    (lockOk = false → (innerHook_drop lockOk r).unhookCalls = []) ∧
    (r.get = 0 → (innerHook_drop lockOk r).unhookCalls = []) ∧
    (∀ t ∈ (innerHook_drop lockOk r).unhookCalls, t = r.get ∧ t ≠ 0) := by
  unfold innerHook_drop
  cases lockOk with
  | false => simp
  | true =>
      by_cases h : r.get = 0
      · simp [h]
      · simp [h]

/-- Witness for C2: a drop of a handle whose token is still the NULL sentinel
unregisters nothing. -/
theorem innerHook_drop_unhooks_at_most_once_witness :
    (innerHook_drop true { raw_handle := 0 }).unhookCalls = [] :=
  (innerHook_drop_unhooks_at_most_once true { raw_handle := 0 }).2.2.2.1 rfl

/-- C4: the wait loop of `InnerHook::new` cannot pass before the spawned
thread runs (the flag starts `false`), the spawned thread sets and signals
the readiness flag no matter what `SetWindowsHookExA` returned, so `new`
returns afterwards; on return the token is stored when registration
succeeded (and its mutex was healthy), and remains unset when registration
failed. -/
theorem innerHook_new_handshake (hhook : Nat) (rawLockOk : Bool) (st : HandshakeState) :
    new_wait_returns handshakeInit = false ∧
    new_wait_returns (hook_thread_startup hhook rawLockOk st) = true ∧
    (hook_thread_startup hhook rawLockOk st).notified = true ∧
    (hhook ≠ 0 → rawLockOk = true →
      (hook_thread_startup hhook rawLockOk st).raw.get = hhook) ∧
    (hhook = 0 → (hook_thread_startup hhook rawLockOk st).raw = st.raw) := by
  refine ⟨rfl, ?_, ?_, ?_, ?_⟩ <;>
    unfold hook_thread_startup <;>
    by_cases h : hhook = 0 <;>
    cases rawLockOk <;>
    simp [h, new_wait_returns, RawHook.set, RawHook.get]

/-- Witness for C4: after a successful registration with token 5, the caller
is released and the token is stored. -/
theorem innerHook_new_handshake_witness :
    (hook_thread_startup 5 true handshakeInit).raw.get = 5 :=
  (innerHook_new_handshake 5 true handshakeInit).2.2.2.1 (by decide) rfl

/-- C5: any negative filter code makes the callback a pure forward: nothing
is sent on the channel, the channel is untouched, and the return value is
exactly what `CallNextHookEx` returned. -/
theorem negative_code_pure_forward (kb : Bool) (chain : Int) (c : MpscState)
    (recvAlive : Bool) (code : Int) (wm : Nat) (h : code < 0) :
    low_level_keyboard_procedure kb chain c recvAlive code wm =
      ({ sent := none, ret := chain, chainCalled := true }, c) := by
  unfold low_level_keyboard_procedure
  rw [if_pos (Or.inl h)]

/-- Witness for C5: the callback at filter code −1. -/
theorem negative_code_pure_forward_witness :
    low_level_keyboard_procedure true 7 chanInit true (-1) 256 =
      ({ sent := none, ret := 7, chainCalled := true }, chanInit) :=
  negative_code_pure_forward true 7 chanInit true (-1) 256 (by decide)

/-- C6: with a non-negative filter code and a live keyboard-slot hook, the
callback classifies WM_KEYDOWN and WM_SYSKEYDOWN as Down and WM_KEYUP and
WM_SYSKEYUP as Up and hands the value to `send_key`; every other action code
yields no event and no panic, the event being forwarded unchanged; the chain
is called with the chain's value returned in every case, and the observable
outcome does not depend on whether the send can succeed (failures are
swallowed). -/
theorem callback_classification_and_send (chain : Int) (c : MpscState)
    (recvAlive : Bool) (code : Int) (wm : Nat) (hc : 0 ≤ code) :
    (wm % 2 ^ 32 = WM_KEYDOWN ∨ wm % 2 ^ 32 = WM_SYSKEYDOWN →
      low_level_keyboard_procedure true chain c recvAlive code wm =
        ({ sent := some KeyCode.Down, ret := chain, chainCalled := true },
         send_key c recvAlive KeyCode.Down)) ∧
    (wm % 2 ^ 32 = WM_KEYUP ∨ wm % 2 ^ 32 = WM_SYSKEYUP →
      low_level_keyboard_procedure true chain c recvAlive code wm =
        ({ sent := some KeyCode.Up, ret := chain, chainCalled := true },
         send_key c recvAlive KeyCode.Up)) ∧
    (wm % 2 ^ 32 ≠ WM_KEYDOWN → wm % 2 ^ 32 ≠ WM_SYSKEYDOWN →
     wm % 2 ^ 32 ≠ WM_KEYUP → wm % 2 ^ 32 ≠ WM_SYSKEYUP →
      low_level_keyboard_procedure true chain c recvAlive code wm =
        ({ sent := none, ret := chain, chainCalled := true }, c)) ∧
    ((low_level_keyboard_procedure true chain c recvAlive code wm).1.chainCalled = true) ∧
    ((low_level_keyboard_procedure true chain c recvAlive code wm).1.ret = chain) ∧
    ((low_level_keyboard_procedure true chain c recvAlive code wm).1 =
      (low_level_keyboard_procedure true chain c true code wm).1) := by
  have hnl : ¬ code < 0 := not_lt.mpr hc
  have hcond : ¬ (code < 0 ∨ (true : Bool) = false) := by simp [hnl]
  unfold low_level_keyboard_procedure
  simp only [if_neg hcond]
  refine ⟨?_, ?_, ?_, ?_, ?_, ?_⟩
  · rintro (h | h) <;> rw [h] <;> rfl
  · rintro (h | h) <;> rw [h] <;> rfl
  · intro h1 h2 h3 h4
    have hnone : classify_wm (wm % 2 ^ 32) = none := by
      unfold classify_wm
      rw [if_neg h1, if_neg h3, if_neg h2, if_neg h4]
    rw [hnone]
  · cases hcw : classify_wm (wm % 2 ^ 32) <;> rfl
  · cases hcw : classify_wm (wm % 2 ^ 32) <;> rfl
  · cases hcw : classify_wm (wm % 2 ^ 32) <;> rfl

/-- Witness for C6: a WM_KEYDOWN invocation with filter code 0 classifies
Down and sends it. -/
theorem callback_classification_and_send_witness :
    low_level_keyboard_procedure true 3 chanInit true 0 256 =
      ({ sent := some KeyCode.Down, ret := 3, chainCalled := true },
       send_key chanInit true KeyCode.Down) :=
  (callback_classification_and_send 3 chanInit true 0 256 (by decide)).1 (Or.inl (by decide))

/-- C7: the public acquire of either kind returns `None` exactly when a live
hook of that kind is present at the check; otherwise it returns `Some` of a
handle whose context is the one the kind's slot subsequently references. -/
theorem acquire_returns_none_iff_present (s : RegState) :
    ((setup_keyboard_hook s).1 = none ↔ is_hook_present s = true) ∧
    ((setup_mouse_hook s).1 = none ↔ is_hook_present s = true) ∧
    (is_hook_present s = false →
      (∃ i, (setup_keyboard_hook s).1 = some i ∧
        (setup_keyboard_hook s).2.slot = some i ∧
        upgrade_ok (setup_keyboard_hook s).2 i = true) ∧
      (∃ i, (setup_mouse_hook s).1 = some i ∧
        (setup_mouse_hook s).2.slot = some i ∧
        upgrade_ok (setup_mouse_hook s).2 i = true)) := by
  by_cases hp : is_hook_present s = true
  · refine ⟨?_, ?_, ?_⟩
    · unfold setup_keyboard_hook
      rw [if_pos hp]
      simp [hp]
    · unfold setup_mouse_hook
      rw [if_pos hp]
      simp [hp]
    · intro hdead
      rw [hp] at hdead
      exact Bool.noConfusion hdead
  · rw [Bool.not_eq_true] at hp
    have hpk : setup_keyboard_hook s =
        (some (setup_hook_create s WH_KEYBOARD_LL (some HookProc.lowLevelKeyboardProcedure)).1,
         (setup_hook_create s WH_KEYBOARD_LL (some HookProc.lowLevelKeyboardProcedure)).2) := by
      unfold setup_keyboard_hook
      rw [if_neg (by rw [hp]; exact Bool.noConfusion)]
      rw [setup_hook_eq_create_of_dead s _ _ hp]
    have hpm : setup_mouse_hook s =
        (some (setup_hook_create s WH_MOUSE_LL (some HookProc.lowLevelKeyboardProcedure)).1,
         (setup_hook_create s WH_MOUSE_LL (some HookProc.lowLevelKeyboardProcedure)).2) := by
      unfold setup_mouse_hook
      rw [if_neg (by rw [hp]; exact Bool.noConfusion)]
      rw [setup_hook_eq_create_of_dead s _ _ hp]
    refine ⟨?_, ?_, ?_⟩
    · rw [hpk, hp]
      simp
    · rw [hpm, hp]
      simp
    · intro _
      constructor
      · refine ⟨s.nextId, ?_, ?_, ?_⟩
        · rw [hpk]; rfl
        · rw [hpk]; rfl
        · rw [hpk]
          unfold upgrade_ok setup_hook_create
          simp
      · refine ⟨s.nextId, ?_, ?_, ?_⟩
        · rw [hpm]; rfl
        · rw [hpm]; rfl
        · rw [hpm]
          unfold upgrade_ok setup_hook_create
          simp

/-- Witness for C7: on the virgin registry state no hook is present, and the
acquire of either kind creates and returns context 0. -/
theorem acquire_returns_none_iff_present_witness :
    ∃ i, (setup_keyboard_hook RegState.init).1 = some i ∧
      (setup_keyboard_hook RegState.init).2.slot = some i ∧
      upgrade_ok (setup_keyboard_hook RegState.init).2 i = true :=
  ((acquire_returns_none_iff_present RegState.init).2.2 rfl).1

/-- C9: `try_recv` on the fresh channel state, before any callback fires,
reports `Empty`; in general it reports `Empty` whenever nothing is queued,
a sender is alive and the receiver lock is healthy, and in every case it
returns one of: an event, `Empty`, or `Disconnected`. -/
theorem try_recv_nonblocking_total (recvLockOk : Bool) (c : MpscState) :
    ((InnerHook.try_recv true chanInit).1 = Except.error TryRecvError.Empty) ∧
    (c.queue = [] → 0 < c.senders → recvLockOk = true →
      (InnerHook.try_recv recvLockOk c).1 = Except.error TryRecvError.Empty) ∧
    ((∃ k, (InnerHook.try_recv recvLockOk c).1 = Except.ok k) ∨
      (InnerHook.try_recv recvLockOk c).1 = Except.error TryRecvError.Empty ∨
      (InnerHook.try_recv recvLockOk c).1 = Except.error TryRecvError.Disconnected) := by
  refine ⟨rfl, ?_, ?_⟩
  · intro hq hs hl
    rw [hl]
    unfold InnerHook.try_recv
    rw [if_pos rfl]
    unfold mpsc_try_recv
    rw [hq]
    rw [if_neg (Nat.pos_iff_ne_zero.mp hs)]
  · unfold InnerHook.try_recv
    cases recvLockOk with
    | false => right; right; rfl
    | true =>
        rw [if_pos rfl]
        unfold mpsc_try_recv
        cases hq : c.queue with
        | nil =>
            by_cases hs : c.senders = 0
            · right; right; rw [if_pos hs]
            · right; left; rw [if_neg hs]
        | cons k rest => left; exact ⟨k, rfl⟩

/-- Witness for C9: the fresh channel state, healthy lock. -/
theorem try_recv_nonblocking_total_witness :
    (InnerHook.try_recv true chanInit).1 = Except.error TryRecvError.Empty :=
  (try_recv_nonblocking_total true chanInit).2.1 rfl (by decide) rfl

/-- C1: along every interleaving of atomic `setup_hook` critical sections and
handle drops for one kind, at most one live execution context of that kind
exists at any instant; and while a hook of the kind is live, a further
`setup_hook` call issues no OS registration and hands back the live context
every caller already shares. -/
theorem setup_hook_single_live_context (hook_id : Int) (handler : Option HookProc)
    (tr : List RegAction) :
    (∀ i ∈ (regRun hook_id handler RegState.init tr).handles,
      ∀ j ∈ (regRun hook_id handler RegState.init tr).handles, i = j) ∧
    (is_hook_present (regRun hook_id handler RegState.init tr) = true →
      (setup_hook (regRun hook_id handler RegState.init tr) hook_id handler).2.registrations
        = (regRun hook_id handler RegState.init tr).registrations ∧
      ∀ i ∈ (regRun hook_id handler RegState.init tr).handles,
        (setup_hook (regRun hook_id handler RegState.init tr) hook_id handler).1 = i) := by
  have hInv : RegInv (regRun hook_id handler RegState.init tr) :=
    regInv_run hook_id handler RegState.init regInv_init tr
  constructor
  · intro i hi j hj
    have h1 := hInv i hi
    have h2 := hInv j hj
    rw [h1] at h2
    exact Option.some.inj h2
  · intro hp
    obtain ⟨i0, hs⟩ : ∃ i0, (regRun hook_id handler RegState.init tr).slot = some i0 := by
      unfold is_hook_present at hp
      cases hs : (regRun hook_id handler RegState.init tr).slot with
      | none => rw [hs] at hp; exact Bool.noConfusion hp
      | some i0 => exact ⟨i0, rfl⟩
    have hu : upgrade_ok (regRun hook_id handler RegState.init tr) i0 = true := by
      unfold is_hook_present at hp
      rw [hs] at hp
      exact hp
    rw [setup_hook_eq_clone_of_live _ hook_id handler i0 hs hu]
    constructor
    · rfl
    · intro i hi
      have hsi := hInv i hi
      rw [hs] at hsi
      exact Option.some.inj hsi

/-- Witness for C1: with context 0 live after one registration, a second
`setup_hook` returns that same context. -/
theorem setup_hook_single_live_context_witness :
    (setup_hook (regRun WH_KEYBOARD_LL (some HookProc.lowLevelKeyboardProcedure)
        RegState.init [RegAction.setup]) WH_KEYBOARD_LL
        (some HookProc.lowLevelKeyboardProcedure)).1 = 0 :=
  ((setup_hook_single_live_context WH_KEYBOARD_LL
      (some HookProc.lowLevelKeyboardProcedure) [RegAction.setup]).2
    (by decide)).2 0 (by decide)

/-- C3 counterexample: in the reachable state where the mouse hook is live
and no keyboard hook exists, the callback — the very procedure the mouse
hook registered — forwards without interpreting the event, because the
liveness slot it consults is the keyboard one; the behaviour claim C3 words
(consulting the served kind's slot) classifies and sends instead. -/
theorem mouse_callback_consults_keyboard_slot :
    is_hook_present (sysRun [SysAction.acquireMouse]).mouse = true ∧
    is_hook_present (sysRun [SysAction.acquireMouse]).kb = false ∧
    (low_level_keyboard_procedure (is_hook_present (sysRun [SysAction.acquireMouse]).kb) 7
      (sysRun [SysAction.acquireMouse]).chan true 0 256).1.sent = none ∧
    (callback_per_claim HookKind.mouse
      (is_hook_present (sysRun [SysAction.acquireMouse]).kb)
      (is_hook_present (sysRun [SysAction.acquireMouse]).mouse) 7
      (sysRun [SysAction.acquireMouse]).chan true 0 256).1.sent = some KeyCode.Down := by
  refine ⟨rfl, rfl, ?_, ?_⟩ <;> decide

/-- C3 amended: the callback forwards without any classification or send —
returning exactly the chain's result and leaving the channel untouched —
whenever the filter code is negative or the keyboard slot (the only slot the
procedure consults, for both kinds, both of which register this same
procedure) holds no live hook. -/
theorem callback_forwards_on_dead_keyboard_slot (kb : Bool) (chain : Int)
    (c : MpscState) (recvAlive : Bool) (code : Int) (wm : Nat)
    (h : code < 0 ∨ kb = false) :
    low_level_keyboard_procedure kb chain c recvAlive code wm =
      ({ sent := none, ret := chain, chainCalled := true }, c) ∧
    (setup_mouse_hook RegState.init).2.registrations =
      [(WH_MOUSE_LL, some HookProc.lowLevelKeyboardProcedure)] ∧
    (setup_keyboard_hook RegState.init).2.registrations =
      [(WH_KEYBOARD_LL, some HookProc.lowLevelKeyboardProcedure)] := by
  refine ⟨?_, rfl, rfl⟩
  unfold low_level_keyboard_procedure
  rw [if_pos h]

/-- Witness for C3 amended: non-negative filter code, dead keyboard slot. -/
theorem callback_forwards_on_dead_keyboard_slot_witness :
    low_level_keyboard_procedure false 9 chanInit true 5 256 =
      ({ sent := none, ret := 9, chainCalled := true }, chanInit) :=
  (callback_forwards_on_dead_keyboard_slot false 9 chanInit true 5 256 (Or.inr rfl)).1

/-- C8 counterexample: after the only handle of the only acquired kind is
dropped, `try_recv` with a healthy receiver lock reports `Empty`, not
`Disconnected`. -/
theorem try_recv_after_last_drop_not_disconnected :
    (sysRun [SysAction.acquireKb, SysAction.dropKb 0]).kb.handles = [] ∧
    (sysRun [SysAction.acquireKb, SysAction.dropKb 0]).mouse.handles = [] ∧
    (InnerHook.try_recv true (sysRun [SysAction.acquireKb, SysAction.dropKb 0]).chan).1 =
      Except.error TryRecvError.Empty ∧
    (InnerHook.try_recv true (sysRun [SysAction.acquireKb, SysAction.dropKb 0]).chan).1 ≠
      Except.error TryRecvError.Disconnected := by
  refine ⟨rfl, rfl, rfl, ?_⟩
  intro h
  have h0 : (InnerHook.try_recv true (sysRun [SysAction.acquireKb, SysAction.dropKb 0]).chan).1 =
      Except.error TryRecvError.Empty := rfl
  rw [h0] at h
  exact TryRecvError.noConfusion (Except.error.inj h)

/-- C8 amended: after the last handle is dropped, `try_recv` keeps reporting
`Empty` (with nothing queued and a healthy lock) rather than `Disconnected`:
the sender endpoints live in the never-dropped `GLOBAL_CHANNEL` static, so
along any event sequence a `Disconnected` outcome can only come from a
failed receiver lock, never from the channel. -/
theorem try_recv_after_last_drop_empty (tr : List SysAction) (recvLockOk : Bool) :
    ((sysRun tr).chan.queue = [] → recvLockOk = true →
      (InnerHook.try_recv recvLockOk (sysRun tr).chan).1 = Except.error TryRecvError.Empty) ∧
    ((InnerHook.try_recv recvLockOk (sysRun tr).chan).1 = Except.error TryRecvError.Disconnected →
      recvLockOk = false) := by
  have hs := sysRun_chan_senders tr
  constructor
  · intro hq hl
    rw [hl]
    unfold InnerHook.try_recv
    rw [if_pos rfl]
    unfold mpsc_try_recv
    simp [hq, hs]
  · exact try_recv_not_disconnected_of_senders recvLockOk _ hs

/-- Witness for C8 amended: the acquire-then-drop trace, healthy lock. -/
theorem try_recv_after_last_drop_empty_witness :
    (InnerHook.try_recv true (sysRun [SysAction.acquireKb, SysAction.dropKb 0]).chan).1 =
      Except.error TryRecvError.Empty :=
  (try_recv_after_last_drop_empty [SysAction.acquireKb, SysAction.dropKb 0] true).1 rfl rfl

/-- C10: the keyboard and mouse sender endpoints are clones of one and the
same sender, connected to the shared receiver's channel and held in the
never-dropped `GLOBAL_CHANNEL` static; events produced via the keyboard
sender reach the receiver's queue, the live sender count never leaves 2
along any event sequence, and `try_recv` can report `Disconnected` only
through a failed receiver lock, never from the channel itself. -/
theorem global_channel_single_shared_sender (tr : List SysAction) (recvLockOk : Bool) :
    GLOBAL_CHANNEL.keyboard_sender = GLOBAL_CHANNEL.mouse_sender ∧
    GLOBAL_CHANNEL.keyboard_sender.chan = GLOBAL_CHANNEL.receiver.chan ∧
    (sysRun [SysAction.acquireKb, SysAction.callback 0 256]).chan.queue = [KeyCode.Down] ∧
    (sysRun tr).chan.senders = 2 ∧
    ((InnerHook.try_recv recvLockOk (sysRun tr).chan).1 = Except.error TryRecvError.Disconnected →
      recvLockOk = false) := by
  refine ⟨rfl, rfl, rfl, sysRun_chan_senders tr, ?_⟩
  exact try_recv_not_disconnected_of_senders recvLockOk _ (sysRun_chan_senders tr)

/-- Witness for C10: the producer side is alive after a delivered event, and
the only `Disconnected` outcome comes from a failed lock. -/
theorem global_channel_single_shared_sender_witness :
    (sysRun [SysAction.acquireKb, SysAction.callback 0 256]).chan.senders = 2 ∧
    (false : Bool) = false :=
  ⟨(global_channel_single_shared_sender [SysAction.acquireKb, SysAction.callback 0 256]
      true).2.2.2.1,
   (global_channel_single_shared_sender [] false).2.2.2.2 rfl⟩

end Willhook
